import Mathlib

/-!
Verification of the Rice-Yield-Simulator core (simulation engine, weather and
yield models, streaming statistics) against its specification.

The development is a shallow embedding of the TypeScript sources:
- `src/src/lib/simulationEngine.ts` (the engine class, embedded as a state
  record `EngineState` with one Lean function per method; the shared random
  source `Math.random` is embedded by passing each uniform draw and each
  noise draw as an explicit argument);
- the simulation library (`getSeasonBlend`, `getWeather`, `getTyphoonSeverity`,
  `computeResults`, ...) imported by the engine.

Numbers are embedded as rationals (`ℚ`); all decimal literals in the sources
(0.5, 3.3, 1.96, ...) are exact rationals.  The display-only summary cache and
`yieldBandSeries` (percentile/confidence-interval summaries, which require a
real square root and feed no claim) are omitted from the state; every other
field of the engine class is carried.
-/

-- ==================================================
-- Core enumerations (simulation library, type aliases)
-- ==================================================

inductive WeatherType
  | Dry
  | Normal
  | Wet
  | Typhoon
deriving DecidableEq, Repr

inductive TyphoonSeverity
  | Moderate
  | Severe
deriving DecidableEq, Repr

inductive Season
  | DrySeason
  | WetSeason
  | TransitionSeason
deriving DecidableEq, Repr

inductive IrrigationType
  | Irrigated
  | Rainfed
deriving DecidableEq, Repr

inductive ENSOState
  | ElNino
  | Neutral
  | LaNina
deriving DecidableEq, Repr

inductive SimStatus
  | idle
  | running
  | paused
  | finished
deriving DecidableEq, Repr

inductive SimMode
  | day
  | cycle
deriving DecidableEq, Repr

-- ==================================================
-- Weather & season model (simulation library)
-- ==================================================

/-- DEFAULT_PROFILE.wetStart -/
def wetStart : ℕ := 6

/-- DEFAULT_PROFILE.wetEnd -/
def wetEnd : ℕ := 10

/-- DEFAULT_PROFILE.typhoonMultiplier -/
def typhoonMultiplier : ℚ := 1.2

/-- DEFAULT_PROFILE.severity.Severe (Moderate is 0.6) -/
def severeWeight : ℚ := 0.4

/-- wrapMonth: wraps a month index into 1..12. -/
def wrapMonth (month : ℕ) : ℕ :=
  if month < 1 then month + 12
  else if month > 12 then month - 12
  else month

structure SeasonBlend where
  dryWeight : ℚ
  wetWeight : ℚ
  label : Season
deriving DecidableEq, Repr

/-- getSeasonBlend: the wet window gets wetWeight 1; outside it the wetWeight
comes from the transitions map keyed on the four wrapped boundary months
(0.5 one month out, 0.25 two months out), defaulting to 0; the map is
embedded as a chain of key tests. -/
def getSeasonBlend (month : ℕ) : SeasonBlend :=
  if wetStart ≤ month ∧ month ≤ wetEnd then
    { dryWeight := 0, wetWeight := 1, label := Season.WetSeason }
  else
    let wetWeight : ℚ :=
      if month = wrapMonth (wetStart - 1) then 0.5
      else if month = wrapMonth (wetStart - 2) then 0.25
      else if month = wrapMonth (wetEnd + 1) then 0.5
      else if month = wrapMonth (wetEnd + 2) then 0.25
      else 0
    let dryWeight := 1 - wetWeight
    let label : Season :=
      if 0.6 ≤ wetWeight then Season.WetSeason
      else if wetWeight ≤ 0.4 then Season.DrySeason
      else Season.TransitionSeason
    { dryWeight := dryWeight, wetWeight := wetWeight, label := label }

/-- getSeason -/
def getSeason (month : ℕ) : Season :=
  (getSeasonBlend month).label

structure WeatherWeights where
  dry : ℚ
  normal : ℚ
  wet : ℚ
  typhoon : ℚ
deriving DecidableEq, Repr

/-- getWeatherWeights: blend of the dry and wet season tables, renormalised. -/
def getWeatherWeights (month : ℕ) (typhoonProb : ℚ) : WeatherWeights :=
  let blend := getSeasonBlend month
  let tProb := max 0 (min 0.6 (typhoonProb * typhoonMultiplier))
  let wDry := 0.5 * blend.dryWeight + 0.1 * blend.wetWeight
  let wNormal := 0.4 * blend.dryWeight + 0.4 * blend.wetWeight
  let wWet := 0.1 * blend.dryWeight + 0.35 * blend.wetWeight
  let wTyphoon := 0.05 * blend.dryWeight + tProb * blend.wetWeight
  let total := wDry + wNormal + wWet + wTyphoon
  { dry := wDry / total, normal := wNormal / total,
    wet := wWet / total, typhoon := wTyphoon / total }

/-- getWeather: cumulative-weight selection over the fixed key order, with the
uniform draw `r` (Math.random) passed explicitly. -/
def getWeather (month : ℕ) (typhoonProb : ℚ) (r : ℚ) : WeatherType :=
  let weights := getWeatherWeights month typhoonProb
  if r < weights.dry then WeatherType.Dry
  else if r < weights.dry + weights.normal then WeatherType.Normal
  else if r < weights.dry + weights.normal + weights.wet then WeatherType.Wet
  else WeatherType.Typhoon

/-- getTyphoonSeverity, with the uniform draw `r` passed explicitly. -/
def getTyphoonSeverity (r : ℚ) : TyphoonSeverity :=
  if r < severeWeight then TyphoonSeverity.Severe else TyphoonSeverity.Moderate

-- ==================================================
-- Yield model (simulationEngine.ts lines 116-142)
-- ==================================================

/-- BASE_YIELDS -/
def BASE_YIELDS : WeatherType → ℚ
  | WeatherType.Dry => 2.0
  | WeatherType.Normal => 3.0
  | WeatherType.Wet => 3.3
  | WeatherType.Typhoon => 1.2

/-- TYPHOON_YIELDS -/
def TYPHOON_YIELDS : TyphoonSeverity → ℚ
  | TyphoonSeverity.Moderate => 1.4
  | TyphoonSeverity.Severe => 0.8

/-- IRRIGATION_ADJ -/
def IRRIGATION_ADJ : IrrigationType → ℚ
  | IrrigationType.Irrigated => 0.3
  | IrrigationType.Rainfed => 0

/-- ENSO_ADJ -/
def ENSO_ADJ : ENSOState → ℚ
  | ENSOState.ElNino => -0.4
  | ENSOState.Neutral => 0
  | ENSOState.LaNina => 0.3

structure EngineParams where
  plantingMonth : ℕ
  irrigationType : IrrigationType
  ensoState : ENSOState
  typhoonProbability : ℚ
  cyclesTarget : ℕ
  daysPerCycle : ℕ
deriving DecidableEq, Repr

structure YieldResult where
  final : ℚ
  deterministic : ℚ
  noise : ℚ
  base : ℚ
deriving DecidableEq, Repr

/-- computeYield; the `gaussianNoise()` draw is passed as `noise`. -/
def computeYield (weather : WeatherType) (p : EngineParams)
    (typhoonSeverity : Option TyphoonSeverity) (noise : ℚ) : YieldResult :=
  let base :=
    match weather, typhoonSeverity with
    | WeatherType.Typhoon, some ts => TYPHOON_YIELDS ts
    | _, _ => BASE_YIELDS weather
  let adj := IRRIGATION_ADJ p.irrigationType + ENSO_ADJ p.ensoState
  let deterministic := base + adj
  let final := max 0 (deterministic + noise)
  { final := final, deterministic := deterministic, noise := noise, base := base }

-- ==================================================
-- Histogram (simulationEngine.ts lines 97-112)
-- ==================================================

def BINS_STEP : ℚ := 0.5
def BINS_MAX : ℚ := 5.5
def MAX_SERIES : ℕ := 400

/-- A histogram bin; the source stores the bin start formatted with
`toFixed(1)` as a string label, embedded here as the rational itself. -/
structure HistogramBin where
  label : ℚ
  count : ℕ
deriving DecidableEq, Repr

/-- initBins: bins at 0, 0.5, ..., 5.0 (the loop `v = 0; v < 5.5; v += 0.5`). -/
def initBins : List HistogramBin :=
  (List.range 11).map (fun i => { label := (i : ℚ) * BINS_STEP, count := 0 })

/-- Increment the count of the bin at a given position. -/
def bumpBin : List HistogramBin → ℕ → List HistogramBin
  | [], _ => []
  | b :: rest, 0 => { b with count := b.count + 1 } :: rest
  | b :: rest, n + 1 => b :: bumpBin rest n

/-- addToBin: `idx = min(floor(y / BINS_STEP), bins.length - 1)`, incremented
when `idx >= 0`. -/
def addToBin (bins : List HistogramBin) (y : ℚ) : List HistogramBin :=
  let idx : ℤ := min ⌊y / BINS_STEP⌋ ((bins.length : ℤ) - 1)
  if 0 ≤ idx then bumpBin bins idx.toNat else bins

/-- Sum of all bin counts. -/
def histSum (bins : List HistogramBin) : ℕ :=
  (bins.map (fun b => b.count)).sum

-- ==================================================
-- Welford accumulator (finalizeCycle lines 491-495) and the
-- two-pass statistics of computeResults (simulation library)
-- ==================================================

structure Welford where
  count : ℕ
  mean : ℚ
  m2 : ℚ
deriving DecidableEq, Repr

/-- One Welford update, exactly the statement sequence of finalizeCycle:
count increment, delta, mean update, delta2, M2 update. -/
def welfordStep (w : Welford) (y : ℚ) : Welford :=
  let count := w.count + 1
  let delta := y - w.mean
  let mean := w.mean + delta / (count : ℚ)
  let delta2 := y - mean
  { count := count, mean := mean, m2 := w.m2 + delta * delta2 }

/-- Ingest a whole sequence of per-cycle yields, starting from the zeroed
accumulator of `resetInternals`. -/
def welfordFold (l : List ℚ) : Welford :=
  l.foldl welfordStep { count := 0, mean := 0, m2 := 0 }

/-- computeResults: `mean = yields.reduce((a,b) => a+b, 0) / n`. -/
def twoPassMean (l : List ℚ) : ℚ :=
  l.sum / (l.length : ℚ)

/-- computeResults: `variance = yields.reduce((a,b) => a+(b-mean)**2, 0) / n`. -/
def twoPassVariance (l : List ℚ) : ℚ :=
  (l.map (fun y => (y - twoPassMean l) ^ 2)).sum / (l.length : ℚ)

-- ==================================================
-- Engine data model (simulationEngine.ts)
-- ==================================================

structure WeatherCounts where
  dry : ℕ
  normal : ℕ
  wet : ℕ
  typhoon : ℕ
deriving DecidableEq, Repr

def WeatherCounts.get (c : WeatherCounts) : WeatherType → ℕ
  | WeatherType.Dry => c.dry
  | WeatherType.Normal => c.normal
  | WeatherType.Wet => c.wet
  | WeatherType.Typhoon => c.typhoon

def WeatherCounts.incr (c : WeatherCounts) : WeatherType → WeatherCounts
  | WeatherType.Dry => { c with dry := c.dry + 1 }
  | WeatherType.Normal => { c with normal := c.normal + 1 }
  | WeatherType.Wet => { c with wet := c.wet + 1 }
  | WeatherType.Typhoon => { c with typhoon := c.typhoon + 1 }

/-- Field-wise addition (the cycle-mode merge of per-cycle tallies into the
daily totals in finalizeCycle). -/
def WeatherCounts.add (a b : WeatherCounts) : WeatherCounts :=
  { dry := a.dry + b.dry, normal := a.normal + b.normal,
    wet := a.wet + b.wet, typhoon := a.typhoon + b.typhoon }

def zeroWeatherCounts : WeatherCounts :=
  { dry := 0, normal := 0, wet := 0, typhoon := 0 }

structure SeverityCounts where
  moderate : ℕ
  severe : ℕ
deriving DecidableEq, Repr

def SeverityCounts.get (c : SeverityCounts) : TyphoonSeverity → ℕ
  | TyphoonSeverity.Moderate => c.moderate
  | TyphoonSeverity.Severe => c.severe

def SeverityCounts.incr (c : SeverityCounts) : TyphoonSeverity → SeverityCounts
  | TyphoonSeverity.Moderate => { c with moderate := c.moderate + 1 }
  | TyphoonSeverity.Severe => { c with severe := c.severe + 1 }

def SeverityCounts.add (a b : SeverityCounts) : SeverityCounts :=
  { moderate := a.moderate + b.moderate, severe := a.severe + b.severe }

def zeroSeverityCounts : SeverityCounts :=
  { moderate := 0, severe := 0 }

/-- A patch of EngineParams (the TypeScript type of the updateParams argument
and of the pending overlay): a field is present exactly when it is `some`. -/
structure ParamsPatch where
  plantingMonth : Option ℕ := none
  irrigationType : Option IrrigationType := none
  ensoState : Option ENSOState := none
  typhoonProbability : Option ℚ := none
  cyclesTarget : Option ℕ := none
  daysPerCycle : Option ℕ := none
deriving DecidableEq, Repr

/-- The empty overlay `{}`. -/
def emptyPatch : ParamsPatch := {}

/-- The spread `{ ...old, ...new }`: a field present in `new` overrides. -/
def mergePatch (old new : ParamsPatch) : ParamsPatch :=
  { plantingMonth := match new.plantingMonth with
      | some v => some v
      | none => old.plantingMonth,
    irrigationType := match new.irrigationType with
      | some v => some v
      | none => old.irrigationType,
    ensoState := match new.ensoState with
      | some v => some v
      | none => old.ensoState,
    typhoonProbability := match new.typhoonProbability with
      | some v => some v
      | none => old.typhoonProbability,
    cyclesTarget := match new.cyclesTarget with
      | some v => some v
      | none => old.cyclesTarget,
    daysPerCycle := match new.daysPerCycle with
      | some v => some v
      | none => old.daysPerCycle }

/-- The spread `{ ...params, ...patch }` producing a full parameter set. -/
def applyPending (p : EngineParams) (pp : ParamsPatch) : EngineParams :=
  { plantingMonth := pp.plantingMonth.getD p.plantingMonth,
    irrigationType := pp.irrigationType.getD p.irrigationType,
    ensoState := pp.ensoState.getD p.ensoState,
    typhoonProbability := pp.typhoonProbability.getD p.typhoonProbability,
    cyclesTarget := pp.cyclesTarget.getD p.cyclesTarget,
    daysPerCycle := pp.daysPerCycle.getD p.daysPerCycle }

/-- The rest of a patch after destructuring out typhoonProbability
(the update argument destructured in updateParams). -/
def restOf (u : ParamsPatch) : ParamsPatch :=
  { u with typhoonProbability := none }

/-- `Object.keys(rest).length > 0` for a typhoonProbability-free patch. -/
def hasKeys (u : ParamsPatch) : Bool :=
  u.plantingMonth.isSome || u.irrigationType.isSome || u.ensoState.isSome ||
  u.cyclesTarget.isSome || u.daysPerCycle.isSome

structure CycleRecord where
  cycleIndex : ℕ
  yieldTons : ℚ
  yieldSacks : ℚ
  season : Season
  weather : WeatherType
  dominantTyphoonSeverity : Option TyphoonSeverity
  typhoonDays : ℕ
  severeTyphoonDays : ℕ
  ensoState : ENSOState
  irrigationType : IrrigationType
  plantingMonth : ℕ
  typhoonProbability : ℚ
deriving DecidableEq, Repr

/-- The state of the SimulationEngine class: one field per mutable class
field.  `rafId` keeps only whether a callback is scheduled; listeners,
emission throttling, the summary cache and yieldBandSeries (display-only,
square-root based) are omitted. -/
structure EngineState where
  status : SimStatus
  mode : SimMode
  speedMultiplier : ℚ
  params : EngineParams
  pendingParams : ParamsPatch
  currentCycleIndex : ℕ
  currentDay : ℕ
  currentWeather : Option WeatherType
  currentYield : Option ℚ
  currentCycleWeatherTimeline : List WeatherType
  cycleWeatherSequence : List WeatherType
  welfordCount : ℕ
  welfordMean : ℚ
  welfordM2 : ℚ
  deterministicMean : ℚ
  deterministicM2 : ℚ
  noiseMean : ℚ
  noiseM2 : ℚ
  lowYieldCount : ℕ
  minYield : Option ℚ
  maxYield : Option ℚ
  yieldHistoryOverTime : List ℚ
  recentYields : List ℚ
  allYields : List ℚ
  yieldSeries : List (ℕ × ℚ)
  cycleRecords : List CycleRecord
  weatherCounts : WeatherCounts
  dailyWeatherCounts : WeatherCounts
  dailyTyphoonSeverityCounts : SeverityCounts
  histogramBins : List HistogramBin
  cycleWeatherAccum : WeatherCounts
  cycleTyphoonSeverityCounts : SeverityCounts
  cycleTyphoonSeveritySequence : List (Option TyphoonSeverity)
  accumulatedMs : ℚ
  cycleElapsedMs : ℚ
  lastTime : Option ℚ
  rafId : Bool
deriving DecidableEq, Repr

/-- The field initialisers of the engine class (a fresh engine). -/
def initState : EngineState :=
  { status := SimStatus.idle
    mode := SimMode.day
    speedMultiplier := 1
    params := { plantingMonth := 6, irrigationType := IrrigationType.Irrigated,
                ensoState := ENSOState.Neutral, typhoonProbability := 15,
                cyclesTarget := 100, daysPerCycle := 120 }
    pendingParams := emptyPatch
    currentCycleIndex := 0
    currentDay := 0
    currentWeather := none
    currentYield := none
    currentCycleWeatherTimeline := []
    cycleWeatherSequence := []
    welfordCount := 0
    welfordMean := 0
    welfordM2 := 0
    deterministicMean := 0
    deterministicM2 := 0
    noiseMean := 0
    noiseM2 := 0
    lowYieldCount := 0
    minYield := none
    maxYield := none
    yieldHistoryOverTime := []
    recentYields := []
    allYields := []
    yieldSeries := []
    cycleRecords := []
    weatherCounts := zeroWeatherCounts
    dailyWeatherCounts := zeroWeatherCounts
    dailyTyphoonSeverityCounts := zeroSeverityCounts
    histogramBins := initBins
    cycleWeatherAccum := zeroWeatherCounts
    cycleTyphoonSeverityCounts := zeroSeverityCounts
    cycleTyphoonSeveritySequence := []
    accumulatedMs := 0
    cycleElapsedMs := 0
    lastTime := none
    rafId := false }

/-- `arr.slice(-n)`: the last `n` elements. -/
def takeRight (n : ℕ) (l : List α) : List α :=
  l.drop (l.length - n)

-- ==================================================
-- Engine operations
-- ==================================================

/-- resetInternals: zero all runtime and statistics state, then commit any
pending overlay into the base params and clear the overlay. -/
def resetInternals (s : EngineState) : EngineState :=
  { s with
    currentCycleIndex := 0
    currentDay := 0
    currentWeather := none
    currentYield := none
    currentCycleWeatherTimeline := []
    cycleWeatherSequence := []
    welfordCount := 0
    welfordMean := 0
    welfordM2 := 0
    deterministicMean := 0
    deterministicM2 := 0
    noiseMean := 0
    noiseM2 := 0
    lowYieldCount := 0
    minYield := none
    maxYield := none
    yieldHistoryOverTime := []
    recentYields := []
    allYields := []
    yieldSeries := []
    cycleRecords := []
    weatherCounts := zeroWeatherCounts
    dailyWeatherCounts := zeroWeatherCounts
    dailyTyphoonSeverityCounts := zeroSeverityCounts
    histogramBins := initBins
    cycleWeatherAccum := zeroWeatherCounts
    cycleTyphoonSeverityCounts := zeroSeverityCounts
    cycleTyphoonSeveritySequence := []
    accumulatedMs := 0
    cycleElapsedMs := 0
    params := applyPending s.params s.pendingParams
    pendingParams := emptyPatch }

/-- pause: only from running; cancels the scheduled callback.  Note that the
time accumulator fields are left untouched. -/
def pause (s : EngineState) : EngineState :=
  if s.status ≠ SimStatus.running then s
  else { s with status := SimStatus.paused, rafId := false }

/-- resume: only from paused; clears lastTime and reschedules the loop. -/
def resume (s : EngineState) : EngineState :=
  if s.status ≠ SimStatus.paused then s
  else { s with status := SimStatus.running, lastTime := none, rafId := true }

/-- reset: cancel the callback, go idle, reset internals. -/
def reset (s : EngineState) : EngineState :=
  resetInternals { s with rafId := false, status := SimStatus.idle }

/-- setSpeed: floored at 0.5. -/
def setSpeed (s : EngineState) (multiplier : ℚ) : EngineState :=
  { s with speedMultiplier := max 0.5 multiplier }

/-- updateParams: typhoonProbability applies immediately; the rest applies
immediately when not active, and is staged into the pending overlay while
running or paused. -/
def updateParams (s : EngineState) (u : ParamsPatch) : EngineState :=
  let s1 :=
    match u.typhoonProbability with
    | some tp => { s with params := { s.params with typhoonProbability := tp } }
    | none => s
  let rest := restOf u
  let isActive := s1.status = SimStatus.running ∨ s1.status = SimStatus.paused
  if ¬ isActive then
    { s1 with params := applyPending s1.params rest, pendingParams := emptyPatch }
  else if hasKeys rest then
    { s1 with pendingParams := mergePatch s1.pendingParams rest }
  else s1

/-- getDominantWeather: `Object.keys(counts).reduce((a, b) =>
counts[a] >= counts[b] ? a : b)` over the key order Dry, Normal, Wet,
Typhoon. -/
def getDominantWeather (c : WeatherCounts) : WeatherType :=
  [WeatherType.Normal, WeatherType.Wet, WeatherType.Typhoon].foldl
    (fun a b => if c.get b ≤ c.get a then a else b) WeatherType.Dry

/-- The dominant-severity selection of finalizeCycle:
`dominantWeather === Typhoon && typhoonDays > 0
  ? (Severe >= Moderate ? Severe : Moderate) : null`. -/
def dominantSeverityFor (sc : SeverityCounts) (dominantWeather : WeatherType) :
    Option TyphoonSeverity :=
  let typhoonDays := sc.moderate + sc.severe
  if dominantWeather = WeatherType.Typhoon ∧ 0 < typhoonDays then
    some (if sc.moderate ≤ sc.severe then TyphoonSeverity.Severe
          else TyphoonSeverity.Moderate)
  else none

/-- The CycleRecord built by finalizeCycle, a function of the pre-commit
params and the per-cycle tallies only (it does not read the pending
overlay). -/
def cycleRecordOf (s : EngineState) (season : Season)
    (dominantWeather : WeatherType) (noise : ℚ) : CycleRecord :=
  let domSev := dominantSeverityFor s.cycleTyphoonSeverityCounts dominantWeather
  let r := computeYield dominantWeather s.params domSev noise
  { cycleIndex := s.currentCycleIndex + 1
    yieldTons := r.final
    yieldSacks := r.final * 20
    season := season
    weather := dominantWeather
    dominantTyphoonSeverity := domSev
    typhoonDays := s.cycleTyphoonSeverityCounts.moderate + s.cycleTyphoonSeverityCounts.severe
    severeTyphoonDays := s.cycleTyphoonSeverityCounts.severe
    ensoState := s.params.ensoState
    irrigationType := s.params.irrigationType
    plantingMonth := s.params.plantingMonth
    typhoonProbability := s.params.typhoonProbability }

/-- finalizeCycle: compute the yield of the completed cycle from the
pre-commit params, feed the accumulator, append the CycleRecord, commit the
pending overlay, and roll the per-cycle state over.  The noise draw of
`computeYield` is passed as `noise`; the summary cache and yieldBandSeries
are omitted. -/
def finalizeCycle (s : EngineState) (season : Season)
    (dominantWeather : WeatherType) (noise : ℚ) : EngineState :=
  let domSev := dominantSeverityFor s.cycleTyphoonSeverityCounts dominantWeather
  let r := computeYield dominantWeather s.params domSev noise
  let yld := r.final
  let welfordCount := s.welfordCount + 1
  let delta := yld - s.welfordMean
  let welfordMean := s.welfordMean + delta / (welfordCount : ℚ)
  let delta2 := yld - welfordMean
  let welfordM2 := s.welfordM2 + delta * delta2
  let dDelta := r.deterministic - s.deterministicMean
  let deterministicMean := s.deterministicMean + dDelta / (welfordCount : ℚ)
  let dDelta2 := r.deterministic - deterministicMean
  let deterministicM2 := s.deterministicM2 + dDelta * dDelta2
  let nDelta := r.noise - s.noiseMean
  let noiseMean := s.noiseMean + nDelta / (welfordCount : ℚ)
  let nDelta2 := r.noise - noiseMean
  let noiseM2 := s.noiseM2 + nDelta * nDelta2
  { s with
    currentYield := some yld
    weatherCounts := s.weatherCounts.incr dominantWeather
    dailyWeatherCounts :=
      if s.mode = SimMode.cycle then s.dailyWeatherCounts.add s.cycleWeatherAccum
      else s.dailyWeatherCounts
    dailyTyphoonSeverityCounts :=
      if s.mode = SimMode.cycle then
        s.dailyTyphoonSeverityCounts.add s.cycleTyphoonSeverityCounts
      else s.dailyTyphoonSeverityCounts
    welfordCount := welfordCount
    welfordMean := welfordMean
    welfordM2 := welfordM2
    deterministicMean := deterministicMean
    deterministicM2 := deterministicM2
    noiseMean := noiseMean
    noiseM2 := noiseM2
    lowYieldCount := if yld < 2.0 then s.lowYieldCount + 1 else s.lowYieldCount
    minYield := some (match s.minYield with
      | none => yld
      | some m => if yld < m then yld else m)
    maxYield := some (match s.maxYield with
      | none => yld
      | some m => if m < yld then yld else m)
    allYields := s.allYields ++ [yld]
    histogramBins := addToBin s.histogramBins yld
    yieldHistoryOverTime := takeRight MAX_SERIES (s.yieldHistoryOverTime ++ [welfordMean])
    yieldSeries := takeRight MAX_SERIES (s.yieldSeries ++ [(s.currentCycleIndex + 1, yld)])
    recentYields := takeRight 59 s.recentYields ++ [yld]
    cycleRecords := s.cycleRecords ++ [cycleRecordOf s season dominantWeather noise]
    params := applyPending s.params s.pendingParams
    pendingParams := emptyPatch
    currentCycleIndex := s.currentCycleIndex + 1
    currentDay := 0
    cycleWeatherAccum := zeroWeatherCounts
    cycleTyphoonSeverityCounts := zeroSeverityCounts
    cycleTyphoonSeveritySequence := []
    currentCycleWeatherTimeline := []
    cycleWeatherSequence := [] }

/-- finish: transition to finished and cancel the callback. -/
def finish (s : EngineState) : EngineState :=
  { s with status := SimStatus.finished, rafId := false }

/-- tickDay: one simulated day in day mode.  `rw` and `rs` are the uniform
draws for the weather and severity samples; `noise` is the noise draw used
when the day completes a cycle. -/
def tickDay (s : EngineState) (rw rs noise : ℚ) : EngineState :=
  if s.params.cyclesTarget ≤ s.currentCycleIndex then finish s
  else
    let season := getSeason s.params.plantingMonth
    let weather := getWeather s.params.plantingMonth (s.params.typhoonProbability / 100) rw
    let s : EngineState :=
      if weather = WeatherType.Typhoon then
        let severity := getTyphoonSeverity rs
        { s with
          cycleTyphoonSeverityCounts := s.cycleTyphoonSeverityCounts.incr severity
          dailyTyphoonSeverityCounts := s.dailyTyphoonSeverityCounts.incr severity }
      else s
    let timeline := s.currentCycleWeatherTimeline ++ [weather]
    let timeline :=
      if s.params.daysPerCycle < timeline.length then timeline.drop 1 else timeline
    let s : EngineState :=
      { s with
        currentDay := s.currentDay + 1
        currentWeather := some weather
        cycleWeatherAccum := s.cycleWeatherAccum.incr weather
        dailyWeatherCounts := s.dailyWeatherCounts.incr weather
        currentCycleWeatherTimeline := timeline }
    if s.params.daysPerCycle ≤ s.currentDay then
      finalizeCycle s season (getDominantWeather s.cycleWeatherAccum) noise
    else s

/-- prepareCycle: pre-generate the whole day-by-day weather sequence of one
cycle.  `draws d` supplies the weather and severity uniform draws of day
`d`. -/
def prepareCycle (s : EngineState) (draws : ℕ → ℚ × ℚ) : EngineState :=
  let tProb := s.params.typhoonProbability / 100
  let gen := (List.range s.params.daysPerCycle).foldl
    (fun (acc : List WeatherType × WeatherCounts × SeverityCounts × List (Option TyphoonSeverity)) d =>
      let (seq, wAccum, sevCounts, sevSeq) := acc
      let w := getWeather s.params.plantingMonth tProb (draws d).1
      if w = WeatherType.Typhoon then
        let severity := getTyphoonSeverity (draws d).2
        (seq ++ [w], wAccum.incr w, sevCounts.incr severity, sevSeq ++ [some severity])
      else
        (seq ++ [w], wAccum.incr w, sevCounts, sevSeq ++ [none]))
    ([], zeroWeatherCounts, zeroSeverityCounts, [])
  { s with
    cycleWeatherSequence := gen.1
    cycleWeatherAccum := gen.2.1
    cycleTyphoonSeverityCounts := gen.2.2.1
    cycleTyphoonSeveritySequence := gen.2.2.2
    currentDay := 0
    currentWeather := gen.1.head?
    currentCycleWeatherTimeline := [] }

/-- cycleDurationMs: `min(500, max(200, 300 / speedMultiplier))`. -/
def cycleDurationMs (s : EngineState) : ℚ :=
  min 500 (max 200 (300 / s.speedMultiplier))

/-- The body of one iteration of the tickCycle catch-up loop: jump the day
counter to the end of the cycle, expose the whole pre-generated timeline,
and finalize with the dominant weather of the pre-generated tally. -/
def cycleFinalize (s : EngineState) (noise : ℚ) : EngineState :=
  finalizeCycle
    { s with
      currentDay := s.params.daysPerCycle
      currentCycleWeatherTimeline := s.cycleWeatherSequence }
    (getSeason s.params.plantingMonth)
    (getDominantWeather s.cycleWeatherAccum) noise

/-- The prepare-if-empty entry step of tickCycle. -/
def cyclePrepareIfEmpty (s : EngineState) (draws : ℕ → ℚ × ℚ) : EngineState :=
  if s.cycleWeatherSequence.isEmpty then prepareCycle s draws else s

/-- The tail of one catch-up iteration of tickCycle: finish when the target
is reached, otherwise subtract the cycle duration from the elapsed-time
accumulator and pre-generate the next cycle (the cycle duration depends only
on the speed multiplier, which finalization does not change). -/
def cycleAdvance (s : EngineState) (draws : ℕ → ℚ × ℚ) : EngineState :=
  if s.params.cyclesTarget ≤ s.currentCycleIndex then finish s
  else
    prepareCycle
      { s with cycleElapsedMs := s.cycleElapsedMs - cycleDurationMs s } draws

/-- One whole-cycle step of cycle mode: the entry finish check and
prepare-if-empty of tickCycle, then one iteration of its catch-up loop
(finalize the cycle, then finish or advance to the next cycle). -/
def cycleStep (s : EngineState) (noise : ℚ) (draws : ℕ → ℚ × ℚ) : EngineState :=
  if s.params.cyclesTarget ≤ s.currentCycleIndex then finish s
  else cycleAdvance (cycleFinalize (cyclePrepareIfEmpty s draws) noise) draws

/-- start: day mode, reset internals, run, schedule the loop. -/
def start (s : EngineState) : EngineState :=
  let s := resetInternals { s with mode := SimMode.day }
  { s with status := SimStatus.running, lastTime := none, accumulatedMs := 0,
           rafId := true }

/-- startInstant: cycle mode, reset internals, run, pre-generate the first
cycle, schedule the loop. -/
def startInstant (s : EngineState) (draws : ℕ → ℚ × ℚ) : EngineState :=
  let s := resetInternals { s with mode := SimMode.cycle }
  let s := { s with status := SimStatus.running, lastTime := none,
                    accumulatedMs := 0, cycleElapsedMs := 0 }
  let s := prepareCycle s draws
  { s with rafId := true }

/-- The elapsed-time computation at the top of the scheduling callback:
`delta = lastTime === null ? 16 : now - lastTime`. -/
def frameDelta (s : EngineState) (now : ℚ) : ℚ :=
  match s.lastTime with
  | none => 16
  | some t => now - t

-- ==================================================
-- Command traces over the control surface and the scheduler steps
-- ==================================================

/-- One externally observable operation: a control-surface call, or one
simulation step the scheduling loop performs (a day in day mode, a whole
cycle in cycle mode).  The loop only steps while the status is running, so
the step commands are guarded accordingly. -/
inductive Cmd where
  | start
  | startInstant (draws : ℕ → ℚ × ℚ)
  | pause
  | resume
  | reset
  | setSpeed (multiplier : ℚ)
  | updateParams (u : ParamsPatch)
  | tickDay (rw rs noise : ℚ)
  | cycleStep (noise : ℚ) (draws : ℕ → ℚ × ℚ)

def stepCmd (c : Cmd) (s : EngineState) : EngineState :=
  match c with
  | Cmd.start => start s
  | Cmd.startInstant draws => startInstant s draws
  | Cmd.pause => pause s
  | Cmd.resume => resume s
  | Cmd.reset => reset s
  | Cmd.setSpeed m => setSpeed s m
  | Cmd.updateParams u => updateParams s u
  | Cmd.tickDay rw rs noise =>
      if s.status = SimStatus.running ∧ s.mode = SimMode.day then
        tickDay s rw rs noise
      else s
  | Cmd.cycleStep noise draws =>
      if s.status = SimStatus.running ∧ s.mode = SimMode.cycle then
        cycleStep s noise draws
      else s

def runCmds (cmds : List Cmd) (s : EngineState) : EngineState :=
  cmds.foldl (fun s c => stepCmd c s) s

/-- Position of a weather type in the fixed enumeration order of the weather
count record keys (the declaration order Dry, Normal, Wet, Typhoon over which
the reduce runs). -/
def keyIndex : WeatherType → ℕ
  | WeatherType.Dry => 0
  | WeatherType.Normal => 1
  | WeatherType.Wet => 2
  | WeatherType.Typhoon => 3

/-- The histogram-vs-records invariant: 11 bins, and the total bin count
equals the number of CycleRecords (one per completed cycle). -/
def HistInv (s : EngineState) : Prop :=
  s.histogramBins.length = 11 ∧
  histSum s.histogramBins = s.cycleRecords.length

-- ==================================================
-- Theorems
-- ==================================================

/-- C4: computeYield returns final = max(0, deterministic + noise) — never
negative — with deterministic = base + irrigation delta + ENSO delta, and
base the severity yield when the weather is Typhoon with a known severity,
otherwise the per-weather base; final, deterministic and noise are all
returned. -/
theorem computeYield_floor_and_decomposition (w : WeatherType) (p : EngineParams)
    (sev : Option TyphoonSeverity) (noise : ℚ) :
    (computeYield w p sev noise).final =
      max 0 ((computeYield w p sev noise).deterministic + noise) ∧
    0 ≤ (computeYield w p sev noise).final ∧
    (computeYield w p sev noise).noise = noise ∧
    (computeYield w p sev noise).deterministic =
      (computeYield w p sev noise).base
        + (match p.irrigationType with
            | IrrigationType.Irrigated => 0.3
            | IrrigationType.Rainfed => 0)
        + (match p.ensoState with
            | ENSOState.ElNino => -0.4
            | ENSOState.Neutral => 0
            | ENSOState.LaNina => 0.3) ∧
    (computeYield w p sev noise).base =
      (match w, sev with
        | WeatherType.Typhoon, some TyphoonSeverity.Moderate => 1.4
        | WeatherType.Typhoon, some TyphoonSeverity.Severe => 0.8
        | WeatherType.Typhoon, none => 1.2
        | WeatherType.Dry, _ => 2.0
        | WeatherType.Normal, _ => 3.0
        | WeatherType.Wet, _ => 3.3) := by
  refine ⟨rfl, le_max_left 0 _, rfl, ?_, ?_⟩
  · cases hi : p.irrigationType <;> cases he : p.ensoState <;>
      simp [computeYield, IRRIGATION_ADJ, ENSO_ADJ, hi, he] <;> ring
  · cases w <;> rcases sev with _ | ts <;>
      first
        | rfl
        | (cases ts <;> rfl)

/-- C7: for every month 1..12 the season blend weights sum to 1; wetWeight is
1 in months 6-10, decays to 0.5 (months 5, 11) and 0.25 (months 4, 12) just
outside the window, dryWeight is 1 elsewhere; and the label is the transition
season exactly when 0.4 ≤ wetWeight ≤ 0.6. -/
theorem seasonBlend_weights_and_label (m : ℕ) (h1 : 1 ≤ m) (h2 : m ≤ 12) :
    (getSeasonBlend m).dryWeight + (getSeasonBlend m).wetWeight = 1 ∧
    (6 ≤ m ∧ m ≤ 10 → (getSeasonBlend m).wetWeight = 1) ∧
    (m = 5 ∨ m = 11 → (getSeasonBlend m).wetWeight = 0.5) ∧
    (m = 4 ∨ m = 12 → (getSeasonBlend m).wetWeight = 0.25) ∧
    (m = 1 ∨ m = 2 ∨ m = 3 → (getSeasonBlend m).dryWeight = 1) ∧
    ((getSeasonBlend m).label = Season.TransitionSeason ↔
      0.4 ≤ (getSeasonBlend m).wetWeight ∧ (getSeasonBlend m).wetWeight ≤ 0.6) := by
  interval_cases m <;>
    norm_num [getSeasonBlend, wrapMonth, wetStart, wetEnd] <;> decide

/-- C7 witness at month 5. -/
theorem seasonBlend_weights_and_label_witness :
    (getSeasonBlend 5).dryWeight + (getSeasonBlend 5).wetWeight = 1 ∧
    (6 ≤ 5 ∧ 5 ≤ 10 → (getSeasonBlend 5).wetWeight = 1) ∧
    (5 = 5 ∨ 5 = 11 → (getSeasonBlend 5).wetWeight = 0.5) ∧
    (5 = 4 ∨ 5 = 12 → (getSeasonBlend 5).wetWeight = 0.25) ∧
    (5 = 1 ∨ 5 = 2 ∨ 5 = 3 → (getSeasonBlend 5).dryWeight = 1) ∧
    ((getSeasonBlend 5).label = Season.TransitionSeason ↔
      0.4 ≤ (getSeasonBlend 5).wetWeight ∧ (getSeasonBlend 5).wetWeight ≤ 0.6) :=
  seasonBlend_weights_and_label 5 (by decide) (by decide)

/-- C2: pause moves running to paused and is the identity from every other
status; resume moves paused to running and is the identity otherwise; start
from idle reaches running; reset reaches idle from every status with the
cycle index, day, Welford statistics, histories and histogram all zeroed.
Every operation is a total function, so no transition raises an error. -/
theorem control_surface_state_machine (s : EngineState) :
    (s.status = SimStatus.running →
      pause s = { s with status := SimStatus.paused, rafId := false }) ∧
    (s.status ≠ SimStatus.running → pause s = s) ∧
    (s.status = SimStatus.paused →
      resume s = { s with status := SimStatus.running, lastTime := none, rafId := true }) ∧
    (s.status ≠ SimStatus.paused → resume s = s) ∧
    (s.status = SimStatus.idle → (start s).status = SimStatus.running) ∧
    ((reset s).status = SimStatus.idle ∧
     (reset s).currentCycleIndex = 0 ∧ (reset s).currentDay = 0 ∧
     (reset s).welfordCount = 0 ∧ (reset s).welfordMean = 0 ∧ (reset s).welfordM2 = 0 ∧
     (reset s).deterministicM2 = 0 ∧ (reset s).noiseM2 = 0 ∧
     (reset s).lowYieldCount = 0 ∧
     (reset s).cycleRecords = [] ∧ (reset s).yieldHistoryOverTime = [] ∧
     (reset s).recentYields = [] ∧ (reset s).yieldSeries = [] ∧
     (reset s).allYields = [] ∧
     histSum (reset s).histogramBins = 0) := by
  refine ⟨fun h => ?_, fun h => ?_, fun h => ?_, fun h => ?_, fun _ => rfl,
    rfl, rfl, rfl, rfl, rfl, rfl, rfl, rfl, rfl, rfl, rfl, rfl, rfl, rfl, ?_⟩
  · simp [pause, h]
  · simp [pause, h]
  · simp [resume, h]
  · simp [resume, h]
  · show histSum initBins = 0
    decide

/-- C2 witness: the transitions evaluated on concrete states. -/
theorem control_surface_state_machine_witness :
    pause { initState with status := SimStatus.running } =
      { { initState with status := SimStatus.running } with
        status := SimStatus.paused, rafId := false } ∧
    pause initState = initState ∧
    resume initState = initState ∧
    (start initState).status = SimStatus.running ∧
    (reset initState).status = SimStatus.idle :=
  ⟨(control_surface_state_machine _).1 rfl,
   (control_surface_state_machine initState).2.1 (by decide),
   (control_surface_state_machine initState).2.2.2.1 (by decide),
   (control_surface_state_machine initState).2.2.2.2.1 rfl,
   (control_surface_state_machine initState).2.2.2.2.2.1⟩

/-- C10: start and startInstant are accepted in every status, zero all
runtime and statistics state, commit the pending overlay into the base
params, and reach running — so a start issued mid-run discards every
accumulated result instead of being ignored. -/
theorem start_any_status_discards_results (s : EngineState) (draws : ℕ → ℚ × ℚ) :
    (start s).status = SimStatus.running ∧
    (startInstant s draws).status = SimStatus.running ∧
    (start s).cycleRecords = [] ∧ (startInstant s draws).cycleRecords = [] ∧
    (start s).welfordCount = 0 ∧ (start s).welfordMean = 0 ∧ (start s).welfordM2 = 0 ∧
    (startInstant s draws).welfordCount = 0 ∧
    (start s).histogramBins = initBins ∧ (startInstant s draws).histogramBins = initBins ∧
    (start s).yieldHistoryOverTime = [] ∧ (start s).recentYields = [] ∧
    (start s).yieldSeries = [] ∧ (start s).allYields = [] ∧
    (startInstant s draws).yieldHistoryOverTime = [] ∧
    (startInstant s draws).recentYields = [] ∧
    (start s).currentCycleIndex = 0 ∧ (start s).currentDay = 0 ∧
    (startInstant s draws).currentCycleIndex = 0 ∧
    (startInstant s draws).currentDay = 0 ∧
    (start s).params = applyPending s.params s.pendingParams ∧
    (start s).pendingParams = emptyPatch ∧
    (startInstant s draws).params = applyPending s.params s.pendingParams ∧
    (startInstant s draws).pendingParams = emptyPatch :=
  ⟨rfl, rfl, rfl, rfl, rfl, rfl, rfl, rfl, rfl, rfl, rfl, rfl, rfl, rfl, rfl,
   rfl, rfl, rfl, rfl, rfl, rfl, rfl, rfl, rfl⟩

/-- C8 counterexample: pause from running does NOT empty the fixed-step time
accumulator — a state with half a quantum of leftover time keeps it across
the pause. -/
theorem pause_keeps_leftover_time_cex :
    (pause { initState with status := SimStatus.running,
                            accumulatedMs := 0.5 }).accumulatedMs = 0.5 ∧
    ((0.5 : ℚ) ≠ 0) ∧
    (pause { initState with status := SimStatus.running,
                            accumulatedMs := 0.5 }).status = SimStatus.paused := by
  refine ⟨rfl, by norm_num, rfl⟩

/-- C8 amended: pause halts the loop but leaves the time accumulator
unchanged (leftover fractional time is retained, not discarded); what is
discarded is the wall-clock time elapsed while paused — resume clears
lastTime, so the first scheduling callback after resume computes the fixed
fallback delta of 16 ms regardless of the pause duration, and no catch-up
steps run for time banked during the pause. -/
theorem pause_retains_time_resume_restarts_fresh (s : EngineState)
    (h : s.status = SimStatus.running) (now : ℚ) :
    (pause s).accumulatedMs = s.accumulatedMs ∧
    (pause s).rafId = false ∧
    (resume (pause s)).lastTime = none ∧
    frameDelta (resume (pause s)) now = 16 := by
  simp [pause, resume, frameDelta, h]

/-- C8 witness on a concrete running state. -/
theorem pause_retains_time_resume_restarts_fresh_witness :
    (pause { initState with status := SimStatus.running,
                            accumulatedMs := 0.25 }).accumulatedMs =
      { initState with status := SimStatus.running,
                       accumulatedMs := 0.25 }.accumulatedMs ∧
    (pause { initState with status := SimStatus.running,
                            accumulatedMs := 0.25 }).rafId = false ∧
    (resume (pause { initState with status := SimStatus.running,
                                    accumulatedMs := 0.25 })).lastTime = none ∧
    frameDelta (resume (pause { initState with status := SimStatus.running,
                                               accumulatedMs := 0.25 })) 1000 = 16 :=
  pause_retains_time_resume_restarts_fresh
    { initState with status := SimStatus.running, accumulatedMs := 0.25 } rfl 1000

-- ==================================================
-- Welford lemmas
-- ==================================================

theorem welfordStep_count (w : Welford) (y : ℚ) :
    (welfordStep w y).count = w.count + 1 := rfl

/-- One step preserves the running-sum relation: mean times count is the sum
of the ingested values. -/
theorem welfordStep_mean_mul (w : Welford) (y : ℚ) :
    (welfordStep w y).mean * ((w.count : ℚ) + 1) = w.mean * (w.count : ℚ) + y := by
  have h : ((w.count : ℚ) + 1) ≠ 0 := by positivity
  simp only [welfordStep]
  push_cast
  field_simp
  ring

/-- One step adds the square of the new value to M2 + count * mean ^ 2. -/
theorem welfordStep_sq (w : Welford) (y : ℚ) :
    (welfordStep w y).m2 + ((w.count : ℚ) + 1) * (welfordStep w y).mean ^ 2 =
      w.m2 + (w.count : ℚ) * w.mean ^ 2 + y ^ 2 := by
  have h : ((w.count : ℚ) + 1) ≠ 0 := by positivity
  have hm := welfordStep_mean_mul w y
  simp only [welfordStep] at hm ⊢
  push_cast at hm ⊢
  field_simp at hm ⊢
  nlinarith [hm]

theorem welford_foldl_invariants (l : List ℚ) : ∀ w : Welford,
    (List.foldl welfordStep w l).count = w.count + l.length ∧
    (List.foldl welfordStep w l).mean * ((w.count : ℚ) + (l.length : ℚ)) =
      w.mean * (w.count : ℚ) + l.sum ∧
    (List.foldl welfordStep w l).m2 +
        ((w.count : ℚ) + (l.length : ℚ)) * (List.foldl welfordStep w l).mean ^ 2 =
      w.m2 + (w.count : ℚ) * w.mean ^ 2 + (l.map (fun y => y ^ 2)).sum := by
  induction l with
  | nil => intro w; refine ⟨by simp, by simp, by simp⟩
  | cons y tail ih =>
      intro w
      obtain ⟨hc, hm, hq⟩ := ih (welfordStep w y)
      rw [welfordStep_count] at hc hm hq
      have hs := welfordStep_mean_mul w y
      have hsq := welfordStep_sq w y
      refine ⟨?_, ?_, ?_⟩
      · simpa [Nat.add_assoc, Nat.add_comm 1 tail.length] using hc
      · simp only [List.foldl_cons, List.sum_cons, List.length_cons]
        push_cast at hm hs ⊢
        linear_combination hm + hs
      · simp only [List.foldl_cons, List.map_cons, List.sum_cons, List.length_cons]
        push_cast at hq hsq ⊢
        linear_combination hq + hsq

/-- Sum of squared deviations around any center, expanded. -/
theorem sum_sq_sub_expand (l : List ℚ) (c : ℚ) :
    (l.map (fun y => (y - c) ^ 2)).sum =
      (l.map (fun y => y ^ 2)).sum - 2 * c * l.sum + (l.length : ℚ) * c ^ 2 := by
  induction l with
  | nil => simp
  | cons y tail ih =>
      simp only [List.map_cons, List.sum_cons, List.length_cons, ih]
      push_cast
      ring

/-- C5: starting from the zeroed accumulator, after ingesting any sequence of
at least two per-cycle yields the Welford running mean equals the arithmetic
mean and the reported variance M2/count equals the direct two-pass population
variance; on the fixed sequence [2.0, 3.0, 2.5, 4.0] the mean is 2.875; and
the triple maintained by finalizeCycle is exactly one welfordStep on the
cycle yield. -/
theorem welford_matches_two_pass (l : List ℚ) (h : 2 ≤ l.length) :
    (welfordFold l).count = l.length ∧
    (welfordFold l).mean = twoPassMean l ∧
    (welfordFold l).m2 / ((welfordFold l).count : ℚ) = twoPassVariance l ∧
    (welfordFold [2, 3, 2.5, 4]).mean = 2.875 ∧
    (∀ (s : EngineState) (sea : Season) (dw : WeatherType) (noise : ℚ),
      (finalizeCycle s sea dw noise).welfordCount =
        (welfordStep ⟨s.welfordCount, s.welfordMean, s.welfordM2⟩
          (computeYield dw s.params
            (dominantSeverityFor s.cycleTyphoonSeverityCounts dw) noise).final).count ∧
      (finalizeCycle s sea dw noise).welfordMean =
        (welfordStep ⟨s.welfordCount, s.welfordMean, s.welfordM2⟩
          (computeYield dw s.params
            (dominantSeverityFor s.cycleTyphoonSeverityCounts dw) noise).final).mean ∧
      (finalizeCycle s sea dw noise).welfordM2 =
        (welfordStep ⟨s.welfordCount, s.welfordMean, s.welfordM2⟩
          (computeYield dw s.params
            (dominantSeverityFor s.cycleTyphoonSeverityCounts dw) noise).final).m2) := by
  obtain ⟨hc, hm, hq⟩ := welford_foldl_invariants l ⟨0, 0, 0⟩
  simp only [welfordFold] at *
  have hlen : (0:ℚ) < (l.length : ℚ) := by
    have : 0 < l.length := lt_of_lt_of_le (by norm_num) h
    exact_mod_cast this
  have hlen0 : (l.length : ℚ) ≠ 0 := ne_of_gt hlen
  simp only [Nat.cast_zero, zero_add, zero_mul, mul_zero] at hc hm hq
  have hmean : (List.foldl welfordStep ⟨0, 0, 0⟩ l).mean = twoPassMean l := by
    have := hm
    rw [twoPassMean, eq_div_iff hlen0]
    linarith [this]
  refine ⟨by simpa using hc, hmean, ?_, ?_, fun s sea dw noise => ⟨rfl, rfl, rfl⟩⟩
  · have hsum : twoPassMean l * (l.length : ℚ) = l.sum := by
      rw [twoPassMean]; field_simp
    rw [hmean] at hq
    rw [hc, twoPassVariance, sum_sq_sub_expand l (twoPassMean l),
      div_eq_div_iff hlen0 hlen0]
    linear_combination (l.length : ℚ) * hq - 2 * twoPassMean l * (l.length : ℚ) * hsum
  · norm_num [welfordStep]

/-- C5 witness: the fixed sequence [2.0, 3.0, 2.5, 4.0]. -/
theorem welford_matches_two_pass_witness :
    2 ≤ ([2, 3, 2.5, 4] : List ℚ).length ∧
    ((welfordFold [2, 3, 2.5, 4]).count = ([2, 3, 2.5, 4] : List ℚ).length ∧
     (welfordFold [2, 3, 2.5, 4]).mean = twoPassMean [2, 3, 2.5, 4] ∧
     (welfordFold [2, 3, 2.5, 4]).m2 / ((welfordFold [2, 3, 2.5, 4]).count : ℚ) =
       twoPassVariance [2, 3, 2.5, 4] ∧
     (welfordFold [2, 3, 2.5, 4]).mean = 2.875 ∧
     (∀ (s : EngineState) (sea : Season) (dw : WeatherType) (noise : ℚ),
       (finalizeCycle s sea dw noise).welfordCount =
         (welfordStep ⟨s.welfordCount, s.welfordMean, s.welfordM2⟩
           (computeYield dw s.params
             (dominantSeverityFor s.cycleTyphoonSeverityCounts dw) noise).final).count ∧
       (finalizeCycle s sea dw noise).welfordMean =
         (welfordStep ⟨s.welfordCount, s.welfordMean, s.welfordM2⟩
           (computeYield dw s.params
             (dominantSeverityFor s.cycleTyphoonSeverityCounts dw) noise).final).mean ∧
       (finalizeCycle s sea dw noise).welfordM2 =
         (welfordStep ⟨s.welfordCount, s.welfordMean, s.welfordM2⟩
           (computeYield dw s.params
             (dominantSeverityFor s.cycleTyphoonSeverityCounts dw) noise).final).m2)) :=
  ⟨by norm_num, welford_matches_two_pass [2, 3, 2.5, 4] (by norm_num)⟩

-- ==================================================
-- Dominant weather
-- ==================================================

/-- C3: the dominant weather is a maximizer of the per-cycle day tally and
every strictly earlier key in the order Dry, Normal, Wet, Typhoon has a
strictly smaller count (so ties go to the earlier key); when the dominant
weather is Typhoon the dominant severity is a maximizer of the severity
tally with Severe winning ties, and it is null when the dominant weather is
not Typhoon.  The hypothesis records that the severity tally counts exactly
the typhoon days, which tickDay and prepareCycle maintain. -/
theorem dominantSeverityFor_typhoon (sc : SeverityCounts)
    (h : 0 < sc.moderate + sc.severe) :
    ∃ sev, dominantSeverityFor sc WeatherType.Typhoon = some sev ∧
      (∀ t, sc.get t ≤ sc.get sev) ∧
      (sev = TyphoonSeverity.Moderate → sc.severe < sc.moderate) := by
  obtain ⟨m, sv⟩ := sc
  dsimp only [SeverityCounts.get] at *
  by_cases hms : m ≤ sv
  · refine ⟨TyphoonSeverity.Severe, ?_, ?_, ?_⟩
    · simp [dominantSeverityFor, h, hms]
    · intro x; cases x <;> dsimp only [SeverityCounts.get] <;> omega
    · intro hcon; cases hcon
  · refine ⟨TyphoonSeverity.Moderate, ?_, ?_, ?_⟩
    · simp [dominantSeverityFor, h, hms]
    · intro x; cases x <;> dsimp only [SeverityCounts.get] <;> omega
    · intro _; omega

/-- C3: the dominant weather is a maximizer of the per-cycle day tally and
every strictly earlier key in the order Dry, Normal, Wet, Typhoon has a
strictly smaller count (so ties go to the earlier key); when the dominant
weather is Typhoon the dominant severity is a maximizer of the severity
tally with Severe winning ties, and it is null when the dominant weather is
not Typhoon.  The hypothesis records that the severity tally counts exactly
the typhoon days, which tickDay and prepareCycle maintain. -/
theorem dominant_weather_mode_severity_ties
    (c : WeatherCounts) (sc : SeverityCounts)
    (hwf : sc.moderate + sc.severe = c.typhoon) :
    (∀ w, c.get w ≤ c.get (getDominantWeather c)) ∧
    (∀ w, keyIndex w < keyIndex (getDominantWeather c) →
      c.get w < c.get (getDominantWeather c)) ∧
    (getDominantWeather c = WeatherType.Typhoon →
      ∃ sev, dominantSeverityFor sc (getDominantWeather c) = some sev ∧
        (∀ t, sc.get t ≤ sc.get sev) ∧
        (sev = TyphoonSeverity.Moderate → sc.severe < sc.moderate)) ∧
    (getDominantWeather c ≠ WeatherType.Typhoon →
      dominantSeverityFor sc (getDominantWeather c) = none) := by
  obtain ⟨cd, cn, cw, ct⟩ := c
  simp only [getDominantWeather, List.foldl_cons, List.foldl_nil]
  split_ifs with h1 h2 h3 h4 h5 h6 h7 <;>
    dsimp only [WeatherCounts.get] at * <;>
    refine ⟨fun x => by cases x <;> dsimp only [WeatherCounts.get] <;> omega,
      fun x hx => by
        cases x <;> dsimp only [WeatherCounts.get, keyIndex] at hx ⊢ <;> omega,
      fun hT => ?_, fun hT => ?_⟩ <;>
    first
      | exact absurd hT (by decide)
      | exact dominantSeverityFor_typhoon sc (by omega)
      | simp [dominantSeverityFor]

/-- C3 witness: a tally with a Typhoon majority and tied severity counts. -/
theorem dominant_weather_mode_severity_ties_witness :
    ({ moderate := 3, severe := 3 } : SeverityCounts).moderate +
        ({ moderate := 3, severe := 3 } : SeverityCounts).severe =
      ({ dry := 2, normal := 5, wet := 1, typhoon := 6 } : WeatherCounts).typhoon ∧
    ((∀ w, ({ dry := 2, normal := 5, wet := 1, typhoon := 6 } : WeatherCounts).get w ≤
        ({ dry := 2, normal := 5, wet := 1, typhoon := 6 } : WeatherCounts).get
          (getDominantWeather { dry := 2, normal := 5, wet := 1, typhoon := 6 })) ∧
     (∀ w, keyIndex w <
        keyIndex (getDominantWeather { dry := 2, normal := 5, wet := 1, typhoon := 6 }) →
        ({ dry := 2, normal := 5, wet := 1, typhoon := 6 } : WeatherCounts).get w <
        ({ dry := 2, normal := 5, wet := 1, typhoon := 6 } : WeatherCounts).get
          (getDominantWeather { dry := 2, normal := 5, wet := 1, typhoon := 6 })) ∧
     (getDominantWeather { dry := 2, normal := 5, wet := 1, typhoon := 6 } = WeatherType.Typhoon →
       ∃ sev, dominantSeverityFor { moderate := 3, severe := 3 }
           (getDominantWeather { dry := 2, normal := 5, wet := 1, typhoon := 6 }) = some sev ∧
         (∀ t, ({ moderate := 3, severe := 3 } : SeverityCounts).get t ≤
           ({ moderate := 3, severe := 3 } : SeverityCounts).get sev) ∧
         (sev = TyphoonSeverity.Moderate →
           ({ moderate := 3, severe := 3 } : SeverityCounts).severe <
           ({ moderate := 3, severe := 3 } : SeverityCounts).moderate)) ∧
     (getDominantWeather { dry := 2, normal := 5, wet := 1, typhoon := 6 } ≠ WeatherType.Typhoon →
       dominantSeverityFor { moderate := 3, severe := 3 }
         (getDominantWeather { dry := 2, normal := 5, wet := 1, typhoon := 6 }) = none)) :=
  ⟨by decide,
   dominant_weather_mode_severity_ties
     { dry := 2, normal := 5, wet := 1, typhoon := 6 } { moderate := 3, severe := 3 }
     (by decide)⟩

-- ==================================================
-- Parameter staging
-- ==================================================

theorem restOf_typhoonProbability (u : ParamsPatch) :
    (restOf u).typhoonProbability = none := rfl

/-- Merging a keyless typhoonProbability-free patch is the identity. -/
theorem mergePatch_no_keys (p r : ParamsPatch) (hk : hasKeys r = false)
    (htp : r.typhoonProbability = none) : mergePatch p r = p := by
  obtain ⟨f1, f2, f3, f4, f5, f6⟩ := r
  cases f1 <;> cases f2 <;> cases f3 <;> cases f4 <;> cases f5 <;> cases f6 <;>
    simp_all [hasKeys, mergePatch]

/-- C1: while the engine is running or paused, updateParams applies only the
live typhoonProbability field to the base params and stages every other
supplied field into the pending overlay; the next finalizeCycle commits the
whole overlay in one step into the base params and empties it; and the
yield and CycleRecord of the finalized cycle are computed from the single
pre-commit params value — they never read the pending overlay. -/
theorem updateParams_stages_and_commit_atomic
    (s : EngineState) (u : ParamsPatch) (season : Season) (dw : WeatherType)
    (noise : ℚ)
    (h : s.status = SimStatus.running ∨ s.status = SimStatus.paused) :
    (updateParams s u).params =
      { s.params with
        typhoonProbability := u.typhoonProbability.getD s.params.typhoonProbability } ∧
    (updateParams s u).pendingParams = mergePatch s.pendingParams (restOf u) ∧
    (updateParams s u).status = s.status ∧
    (updateParams s u).cycleRecords = s.cycleRecords ∧
    (finalizeCycle (updateParams s u) season dw noise).params =
      applyPending (updateParams s u).params (updateParams s u).pendingParams ∧
    (finalizeCycle (updateParams s u) season dw noise).pendingParams = emptyPatch ∧
    (finalizeCycle (updateParams s u) season dw noise).cycleRecords =
      (updateParams s u).cycleRecords ++
        [cycleRecordOf (updateParams s u) season dw noise] ∧
    (∀ pp : ParamsPatch,
      cycleRecordOf { updateParams s u with pendingParams := pp } season dw noise =
        cycleRecordOf (updateParams s u) season dw noise) ∧
    (cycleRecordOf (updateParams s u) season dw noise).ensoState =
      (updateParams s u).params.ensoState ∧
    (cycleRecordOf (updateParams s u) season dw noise).irrigationType =
      (updateParams s u).params.irrigationType ∧
    (cycleRecordOf (updateParams s u) season dw noise).plantingMonth =
      (updateParams s u).params.plantingMonth ∧
    (cycleRecordOf (updateParams s u) season dw noise).typhoonProbability =
      (updateParams s u).params.typhoonProbability ∧
    (cycleRecordOf (updateParams s u) season dw noise).yieldTons =
      (computeYield dw (updateParams s u).params
        (dominantSeverityFor (updateParams s u).cycleTyphoonSeverityCounts dw)
        noise).final := by
  have key : (updateParams s u).params =
      { s.params with
        typhoonProbability := u.typhoonProbability.getD s.params.typhoonProbability } ∧
      (updateParams s u).pendingParams = mergePatch s.pendingParams (restOf u) ∧
      (updateParams s u).status = s.status ∧
      (updateParams s u).cycleRecords = s.cycleRecords := by
    by_cases hk : hasKeys (restOf u)
    · rcases h with h | h <;> cases htp : u.typhoonProbability <;>
        simp [updateParams, htp, h, hk]
    · rw [mergePatch_no_keys s.pendingParams (restOf u) (by simpa using hk)
        (restOf_typhoonProbability u)]
      rcases h with h | h <;> cases htp : u.typhoonProbability <;>
        simp [updateParams, htp, h, hk]
  obtain ⟨h1, h2, h3, h4⟩ := key
  exact ⟨h1, h2, h3, h4, rfl, rfl, rfl, fun pp => rfl, rfl, rfl, rfl, rfl, rfl⟩

/-- C1 witness: a running engine staging an ENSO change together with a live
typhoonProbability change. -/
theorem updateParams_stages_and_commit_atomic_witness :
    (updateParams { initState with status := SimStatus.running }
        { ensoState := some ENSOState.LaNina, typhoonProbability := some 20 }).params =
      { { initState with status := SimStatus.running }.params with
        typhoonProbability :=
          (some (20:ℚ)).getD
            { initState with status := SimStatus.running }.params.typhoonProbability } ∧
    (updateParams { initState with status := SimStatus.running }
        { ensoState := some ENSOState.LaNina, typhoonProbability := some 20 }).pendingParams =
      mergePatch { initState with status := SimStatus.running }.pendingParams
        (restOf { ensoState := some ENSOState.LaNina, typhoonProbability := some 20 }) ∧
    (updateParams { initState with status := SimStatus.running }
        { ensoState := some ENSOState.LaNina, typhoonProbability := some 20 }).status =
      { initState with status := SimStatus.running }.status ∧
    (updateParams { initState with status := SimStatus.running }
        { ensoState := some ENSOState.LaNina, typhoonProbability := some 20 }).cycleRecords =
      { initState with status := SimStatus.running }.cycleRecords ∧
    (finalizeCycle
        (updateParams { initState with status := SimStatus.running }
          { ensoState := some ENSOState.LaNina, typhoonProbability := some 20 })
        Season.WetSeason WeatherType.Normal 0).params =
      applyPending
        (updateParams { initState with status := SimStatus.running }
          { ensoState := some ENSOState.LaNina, typhoonProbability := some 20 }).params
        (updateParams { initState with status := SimStatus.running }
          { ensoState := some ENSOState.LaNina, typhoonProbability := some 20 }).pendingParams ∧
    (finalizeCycle
        (updateParams { initState with status := SimStatus.running }
          { ensoState := some ENSOState.LaNina, typhoonProbability := some 20 })
        Season.WetSeason WeatherType.Normal 0).pendingParams = emptyPatch ∧
    (finalizeCycle
        (updateParams { initState with status := SimStatus.running }
          { ensoState := some ENSOState.LaNina, typhoonProbability := some 20 })
        Season.WetSeason WeatherType.Normal 0).cycleRecords =
      (updateParams { initState with status := SimStatus.running }
        { ensoState := some ENSOState.LaNina, typhoonProbability := some 20 }).cycleRecords ++
        [cycleRecordOf
          (updateParams { initState with status := SimStatus.running }
            { ensoState := some ENSOState.LaNina, typhoonProbability := some 20 })
          Season.WetSeason WeatherType.Normal 0] ∧
    (∀ pp : ParamsPatch,
      cycleRecordOf
          { updateParams { initState with status := SimStatus.running }
              { ensoState := some ENSOState.LaNina, typhoonProbability := some 20 } with
            pendingParams := pp }
          Season.WetSeason WeatherType.Normal 0 =
        cycleRecordOf
          (updateParams { initState with status := SimStatus.running }
            { ensoState := some ENSOState.LaNina, typhoonProbability := some 20 })
          Season.WetSeason WeatherType.Normal 0) ∧
    (cycleRecordOf
        (updateParams { initState with status := SimStatus.running }
          { ensoState := some ENSOState.LaNina, typhoonProbability := some 20 })
        Season.WetSeason WeatherType.Normal 0).ensoState =
      (updateParams { initState with status := SimStatus.running }
        { ensoState := some ENSOState.LaNina, typhoonProbability := some 20 }).params.ensoState ∧
    (cycleRecordOf
        (updateParams { initState with status := SimStatus.running }
          { ensoState := some ENSOState.LaNina, typhoonProbability := some 20 })
        Season.WetSeason WeatherType.Normal 0).irrigationType =
      (updateParams { initState with status := SimStatus.running }
        { ensoState := some ENSOState.LaNina, typhoonProbability := some 20 }).params.irrigationType ∧
    (cycleRecordOf
        (updateParams { initState with status := SimStatus.running }
          { ensoState := some ENSOState.LaNina, typhoonProbability := some 20 })
        Season.WetSeason WeatherType.Normal 0).plantingMonth =
      (updateParams { initState with status := SimStatus.running }
        { ensoState := some ENSOState.LaNina, typhoonProbability := some 20 }).params.plantingMonth ∧
    (cycleRecordOf
        (updateParams { initState with status := SimStatus.running }
          { ensoState := some ENSOState.LaNina, typhoonProbability := some 20 })
        Season.WetSeason WeatherType.Normal 0).typhoonProbability =
      (updateParams { initState with status := SimStatus.running }
        { ensoState := some ENSOState.LaNina, typhoonProbability := some 20 }).params.typhoonProbability ∧
    (cycleRecordOf
        (updateParams { initState with status := SimStatus.running }
          { ensoState := some ENSOState.LaNina, typhoonProbability := some 20 })
        Season.WetSeason WeatherType.Normal 0).yieldTons =
      (computeYield WeatherType.Normal
        (updateParams { initState with status := SimStatus.running }
          { ensoState := some ENSOState.LaNina, typhoonProbability := some 20 }).params
        (dominantSeverityFor
          (updateParams { initState with status := SimStatus.running }
            { ensoState := some ENSOState.LaNina, typhoonProbability := some 20 }).cycleTyphoonSeverityCounts
          WeatherType.Normal) 0).final :=
  updateParams_stages_and_commit_atomic
    { initState with status := SimStatus.running }
    { ensoState := some ENSOState.LaNina, typhoonProbability := some 20 }
    Season.WetSeason WeatherType.Normal 0 (Or.inl rfl)

-- ==================================================
-- Mid-run ENSO change
-- ==================================================

/-- C9 counterexample: on a running engine (mid-cycle, day 1),
updateParams({ensoState: La Niña}) is followed by the finalization of the
cycle in progress; the very next CycleRecord carries the OLD ensoState
(Neutral), not La Niña — the record is built before the pending overlay is
committed — while the committed base params already carry La Niña for the
following cycle. -/
theorem midrun_enso_update_next_record_cex :
    (finalizeCycle
        (updateParams { initState with status := SimStatus.running, currentDay := 1 }
          { ensoState := some ENSOState.LaNina })
        Season.DrySeason WeatherType.Normal 0).cycleRecords.map CycleRecord.ensoState =
      [ENSOState.Neutral] ∧
    (finalizeCycle
        (updateParams { initState with status := SimStatus.running, currentDay := 1 }
          { ensoState := some ENSOState.LaNina })
        Season.DrySeason WeatherType.Normal 0).params.ensoState = ENSOState.LaNina ∧
    ENSOState.Neutral ≠ ENSOState.LaNina :=
  ⟨rfl, rfl, by decide⟩

/-- C9 amended: a mid-run updateParams({ensoState: e}) leaves the base params
unchanged; the cycle in progress is finalized with the old ensoState — its
yield uses the old params and the very next CycleRecord records the OLD
ensoState; the new ensoState is committed at that finalization boundary and
is reflected beginning with the CycleRecord after it (the first cycle that
starts after the boundary). -/
theorem midrun_enso_update_applies_after_boundary
    (s : EngineState) (e : ENSOState)
    (h : s.status = SimStatus.running ∨ s.status = SimStatus.paused)
    (sea1 sea2 : Season) (dw1 dw2 : WeatherType) (n1 n2 : ℚ) :
    (updateParams s { ensoState := some e }).params = s.params ∧
    (finalizeCycle (updateParams s { ensoState := some e }) sea1 dw1 n1).currentYield =
      some (computeYield dw1 s.params
        (dominantSeverityFor s.cycleTyphoonSeverityCounts dw1) n1).final ∧
    ((finalizeCycle (updateParams s { ensoState := some e })
        sea1 dw1 n1).cycleRecords.getLast?).map CycleRecord.ensoState =
      some s.params.ensoState ∧
    (finalizeCycle (updateParams s { ensoState := some e })
        sea1 dw1 n1).params.ensoState = e ∧
    ((finalizeCycle
        (finalizeCycle (updateParams s { ensoState := some e }) sea1 dw1 n1)
        sea2 dw2 n2).cycleRecords.getLast?).map CycleRecord.ensoState = some e := by
  have hup : updateParams s { ensoState := some e } =
      { s with pendingParams :=
          mergePatch s.pendingParams (restOf { ensoState := some e }) } := by
    rcases h with h | h <;> simp [updateParams, h, restOf, hasKeys]
  rw [hup]
  refine ⟨rfl, rfl, ?_, rfl, ?_⟩ <;>
    simp only [finalizeCycle, List.getLast?_concat, Option.map_some] <;> rfl

/-- C9 witness for the amended statement on a concrete running state. -/
theorem midrun_enso_update_applies_after_boundary_witness :
    (updateParams { initState with status := SimStatus.running, currentDay := 3 }
        { ensoState := some ENSOState.LaNina }).params =
      { initState with status := SimStatus.running, currentDay := 3 }.params ∧
    (finalizeCycle
        (updateParams { initState with status := SimStatus.running, currentDay := 3 }
          { ensoState := some ENSOState.LaNina })
        Season.WetSeason WeatherType.Dry 0).currentYield =
      some (computeYield WeatherType.Dry
        { initState with status := SimStatus.running, currentDay := 3 }.params
        (dominantSeverityFor
          ({ initState with status := SimStatus.running, currentDay := 3 } :
            EngineState).cycleTyphoonSeverityCounts WeatherType.Dry) 0).final ∧
    ((finalizeCycle
        (updateParams { initState with status := SimStatus.running, currentDay := 3 }
          { ensoState := some ENSOState.LaNina })
        Season.WetSeason WeatherType.Dry 0).cycleRecords.getLast?).map
      CycleRecord.ensoState =
      some { initState with status := SimStatus.running, currentDay := 3 }.params.ensoState ∧
    (finalizeCycle
        (updateParams { initState with status := SimStatus.running, currentDay := 3 }
          { ensoState := some ENSOState.LaNina })
        Season.WetSeason WeatherType.Dry 0).params.ensoState = ENSOState.LaNina ∧
    ((finalizeCycle
        (finalizeCycle
          (updateParams { initState with status := SimStatus.running, currentDay := 3 }
            { ensoState := some ENSOState.LaNina })
          Season.WetSeason WeatherType.Dry 0)
        Season.WetSeason WeatherType.Wet 0).cycleRecords.getLast?).map
      CycleRecord.ensoState = some ENSOState.LaNina :=
  midrun_enso_update_applies_after_boundary
    { initState with status := SimStatus.running, currentDay := 3 }
    ENSOState.LaNina (Or.inl rfl) Season.WetSeason Season.WetSeason
    WeatherType.Dry WeatherType.Wet 0 0

-- ==================================================
-- Histogram invariant
-- ==================================================

theorem bumpBin_length (bins : List HistogramBin) (i : ℕ) :
    (bumpBin bins i).length = bins.length := by
  induction bins generalizing i with
  | nil => rfl
  | cons b rest ih => cases i <;> simp [bumpBin, ih]

theorem histSum_bumpBin (bins : List HistogramBin) (i : ℕ) (h : i < bins.length) :
    histSum (bumpBin bins i) = histSum bins + 1 := by
  induction bins generalizing i with
  | nil => simp at h
  | cons b rest ih =>
      cases i with
      | zero => simp [bumpBin, histSum]; omega
      | succ n =>
          have := ih n (by simpa using h)
          simp only [bumpBin, histSum, List.map_cons, List.sum_cons] at this ⊢
          omega

/-- On the actual 11-bin histogram, addToBin with a nonnegative yield
increments exactly the bin with index floor(y / 0.5) clamped to the last
bin, and raises the total count by one. -/
theorem addToBin_spec (bins : List HistogramBin) (y : ℚ)
    (h11 : bins.length = 11) (hy : 0 ≤ y) :
    addToBin bins y = bumpBin bins (min ⌊y / BINS_STEP⌋ 10).toNat ∧
    (addToBin bins y).length = 11 ∧
    histSum (addToBin bins y) = histSum bins + 1 := by
  have hstep : (0:ℚ) < BINS_STEP := by norm_num [BINS_STEP]
  have hfl : 0 ≤ ⌊y / BINS_STEP⌋ :=
    Int.floor_nonneg.mpr (div_nonneg hy (le_of_lt hstep))
  have hlen : ((bins.length : ℤ) - 1) = 10 := by rw [h11]; norm_num
  have heq : addToBin bins y = bumpBin bins (min ⌊y / BINS_STEP⌋ 10).toNat := by
    simp only [addToBin]
    rw [hlen, if_pos (by omega : (0:ℤ) ≤ min ⌊y / BINS_STEP⌋ 10)]
  have hlt : (min ⌊y / BINS_STEP⌋ 10).toNat < bins.length := by
    rw [h11]; omega
  refine ⟨heq, ?_, ?_⟩
  · rw [heq, bumpBin_length, h11]
  · rw [heq, histSum_bumpBin bins _ hlt]

theorem histInv_finalizeCycle (s : EngineState) (sea : Season)
    (dw : WeatherType) (noise : ℚ) (h : HistInv s) :
    HistInv (finalizeCycle s sea dw noise) := by
  obtain ⟨hlen, hsum⟩ := h
  have hy : 0 ≤ (computeYield dw s.params
      (dominantSeverityFor s.cycleTyphoonSeverityCounts dw) noise).final :=
    le_max_left 0 _
  obtain ⟨heq, hlen2, hsum2⟩ := addToBin_spec s.histogramBins _ hlen hy
  constructor
  · exact hlen2
  · show histSum (addToBin s.histogramBins _) =
      (s.cycleRecords ++ [cycleRecordOf s sea dw noise]).length
    rw [hsum2, List.length_append, hsum, List.length_singleton]

theorem histInv_resetInternals (s : EngineState) : HistInv (resetInternals s) := by
  constructor
  · show initBins.length = 11
    decide
  · show histSum initBins = ([] : List CycleRecord).length
    decide

theorem histInv_prepareCycle (s : EngineState) (draws : ℕ → ℚ × ℚ)
    (h : HistInv s) : HistInv (prepareCycle s draws) := h

/-- HistInv only reads the histogram and the record list, so it transfers
across states that agree on them. -/
theorem HistInv.of_eq (s s' : EngineState)
    (hb : s'.histogramBins = s.histogramBins)
    (hr : s'.cycleRecords = s.cycleRecords) (h : HistInv s) : HistInv s' := by
  rw [HistInv, hb, hr]; exact h

theorem histInv_cycleFinalize (s : EngineState) (noise : ℚ) (h : HistInv s) :
    HistInv (cycleFinalize s noise) :=
  histInv_finalizeCycle _ _ _ _ (HistInv.of_eq _ _ rfl rfl h)

theorem histInv_cyclePrepareIfEmpty (s : EngineState) (draws : ℕ → ℚ × ℚ)
    (h : HistInv s) : HistInv (cyclePrepareIfEmpty s draws) := by
  unfold cyclePrepareIfEmpty
  split_ifs
  · exact histInv_prepareCycle _ _ h
  · exact h

theorem histInv_cycleAdvance (s : EngineState) (draws : ℕ → ℚ × ℚ)
    (h : HistInv s) : HistInv (cycleAdvance s draws) := by
  unfold cycleAdvance
  split_ifs
  · exact HistInv.of_eq _ _ rfl rfl h
  · exact histInv_prepareCycle _ _ (HistInv.of_eq _ _ rfl rfl h)

theorem histInv_stepCmd (c : Cmd) (s : EngineState) (h : HistInv s) :
    HistInv (stepCmd c s) := by
  cases c with
  | start =>
      constructor
      · show initBins.length = 11
        decide
      · show histSum initBins = ([] : List CycleRecord).length
        decide
  | startInstant draws =>
      constructor
      · show initBins.length = 11
        decide
      · show histSum initBins = ([] : List CycleRecord).length
        decide
  | pause => unfold stepCmd pause; split_ifs <;> exact h
  | resume => unfold stepCmd resume; split_ifs <;> exact h
  | reset =>
      constructor
      · show initBins.length = 11
        decide
      · show histSum initBins = ([] : List CycleRecord).length
        decide
  | setSpeed m => exact h
  | updateParams u =>
      show HistInv (updateParams s u)
      unfold updateParams
      cases u.typhoonProbability <;> dsimp only <;> split_ifs <;> exact h
  | tickDay rw rs noise =>
      show HistInv (if s.status = SimStatus.running ∧ s.mode = SimMode.day
        then tickDay s rw rs noise else s)
      split_ifs with hg
      · simp only [tickDay]
        split_ifs <;>
          first
            | exact h
            | exact histInv_finalizeCycle _ _ _ _ h
      · exact h
  | cycleStep noise draws =>
      show HistInv (if s.status = SimStatus.running ∧ s.mode = SimMode.cycle
        then cycleStep s noise draws else s)
      split_ifs with hg
      · show HistInv (cycleStep s noise draws)
        unfold cycleStep
        split_ifs
        · exact HistInv.of_eq _ _ rfl rfl h
        · exact histInv_cycleAdvance _ _
            (histInv_cycleFinalize _ _ (histInv_cyclePrepareIfEmpty _ _ h))
      · exact h

theorem histInv_runCmds (cmds : List Cmd) :
    ∀ s : EngineState, HistInv s → HistInv (runCmds cmds s) := by
  induction cmds with
  | nil => intro s h; exact h
  | cons c rest ih => intro s h; exact ih _ (histInv_stepCmd c s h)

/-- C6: the histogram has exactly 11 fixed bins at 0, 0.5, ..., 5.0 (covering
[0, 5.5) in 0.5-wide steps); every cycle finalization increments exactly one
bin — the one at index floor(final / 0.5) clamped to the last bin — so after
any sequence of operations from a fresh engine the bin counts sum to the
number of completed cycles, and a full internal reset zeroes the sum. -/
theorem histogram_sum_equals_completed_cycles :
    initBins.length = 11 ∧
    initBins.map (fun b => b.label) =
      [0, 0.5, 1, 1.5, 2, 2.5, 3, 3.5, 4, 4.5, 5] ∧
    (∀ (bins : List HistogramBin) (y : ℚ), bins.length = 11 → 0 ≤ y →
      addToBin bins y = bumpBin bins (min ⌊y / BINS_STEP⌋ 10).toNat ∧
      histSum (addToBin bins y) = histSum bins + 1) ∧
    (∀ cmds : List Cmd,
      histSum (runCmds cmds initState).histogramBins =
        (runCmds cmds initState).cycleRecords.length) ∧
    (∀ s : EngineState, histSum (reset s).histogramBins = 0) := by
  refine ⟨by decide, ?_, ?_, ?_, ?_⟩
  · norm_num [initBins, BINS_STEP, List.range_succ]
  · intro bins y h11 hy
    obtain ⟨heq, _, hsum⟩ := addToBin_spec bins y h11 hy
    exact ⟨heq, hsum⟩
  · intro cmds
    exact (histInv_runCmds cmds initState ⟨by decide, by decide⟩).2
  · intro s
    show histSum initBins = 0
    decide

/-- C6 witness: the addToBin behaviour at yield 1 and the invariant on a
concrete one-command trace. -/
theorem histogram_sum_equals_completed_cycles_witness :
    (([] : List HistogramBin).length = 0) ∧
    (addToBin initBins 1 = bumpBin initBins (min ⌊(1:ℚ) / BINS_STEP⌋ 10).toNat ∧
      histSum (addToBin initBins 1) = histSum initBins + 1) ∧
    histSum (runCmds [Cmd.start] initState).histogramBins =
      (runCmds [Cmd.start] initState).cycleRecords.length :=
  ⟨rfl,
   histogram_sum_equals_completed_cycles.2.2.1 initBins 1 (by decide) (by norm_num),
   histogram_sum_equals_completed_cycles.2.2.2.1 [Cmd.start]⟩
